import Mathlib

/-!
Verification development for the `ifc-docs` example scripts
(`examples/example1.py`, `examples/example2.py`).

The scripts build IFC documents with the `ifcopenshell` library.  The
embedding below models, faithfully to the Python sources:

* the seeded identifier generator `GuidGenerator` (a `random.Random`
  Mersenne-Twister MT19937 instance, `getrandbits(128)`, the CPython
  `uuid.UUID(int=n, version=v)` bit mangling, and the `ifcopenshell.guid`
  base-64 compression);
* the unseeded `ifcopenshell.guid.new()` identifier source, modelled as an
  explicit external entropy stream (in CPython it draws `os.urandom` bytes
  through `uuid.uuid4()`);
* the IFC entity pool mutated by the scripts (`World` / `IfcFile`);
* `add_properties`, `create_polygon_representation`,
  `create_square_representation`, and the full straight-line builds
  `example1()` and `example2()`.
-/

/-! ## MT19937, exactly as in CPython's `_randommodule.c` -/

/-- Truncation to an unsigned 32-bit word. -/
def u32 (n : Nat) : Nat := n % 4294967296

/-- The 624-word generator state is packed into one natural number,
32 bits per word; `wget s i` reads word `i`. -/
def wget (s i : Nat) : Nat := (s >>> (32 * i)) &&& 0xFFFFFFFF

/-- Write word `i` of the packed state (the new value must fit in 32 bits). -/
def wset (s i v : Nat) : Nat := s ^^^ ((wget s i ^^^ v) <<< (32 * i))

/-- Strict iteration of a step function over a single packed natural-number
state.  `sIterFrom f total n a` applies `a := f idx a` for `n` remaining
steps, where `idx = total - remaining` counts up from `total - n`.  The
result of each step is forced to a numeral through the `Nat` case split
before the next step, so evaluation inside `decide` proofs runs in bounded
stack space instead of building a lazy chain of closures. -/
def sIterFrom (f : Nat → Nat → Nat) (total : Nat) : Nat → Nat → Nat
  | 0, a => a
  | n + 1, a =>
    match f (total - (n + 1)) a with
    | 0 => sIterFrom f total n 0
    | Nat.succ v => sIterFrom f total n (v + 1)

/-- Iteration `idx` (0-based) of `init_genrand` from `_randommodule.c`:
writes `mt[i] = 1812433253 * (mt[i-1] ^ (mt[i-1] >> 30)) + i` (mod 2^32)
at `i = idx + 1`. -/
def igStep (idx mt : Nat) : Nat :=
  let prev := wget mt idx
  wset mt (idx + 1) (u32 (1812433253 * (prev ^^^ (prev >>> 30)) + (idx + 1)))

/-- `init_genrand(s)`: `mt[0] = s`, then 623 recurrence steps. -/
def initGenrand (s : Nat) : Nat := sIterFrom igStep 623 623 (u32 s)

/-- Iteration `idx` of the first mixing loop of `init_by_array`.  The C
loop writes at `i` cycling `1, …, 623, 1, …` (so `i = 1 + idx % 623`),
uses `j = idx % keylen`, and after a write at `i = 623` copies
`mt[0] = mt[623]`. -/
def ibaStep1 (key : List Nat) (idx mt : Nat) : Nat :=
  let i := 1 + idx % 623
  let j := idx % key.length
  let prev := wget mt (i - 1)
  let mt := wset mt i
    (u32 ((wget mt i ^^^ u32 ((prev ^^^ (prev >>> 30)) * 1664525)) + key.getD j 0 + j))
  if i = 623 then wset mt 0 (wget mt 623) else mt

/-- Iteration `idx` of the second mixing loop of `init_by_array`
(`mt[i] = (mt[i] ^ ((mt[i-1] ^ (mt[i-1] >> 30)) * 1566083941)) - i`,
mod 2^32).  After a first loop of 624 iterations (any key of at most 624
words) the write index resumes at 2, runs to 623, wraps, and ends at 1. -/
def ibaStep2 (idx mt : Nat) : Nat :=
  let i := if idx < 622 then 2 + idx else 1
  let prev := wget mt (i - 1)
  let mt := wset mt i
    (u32 ((wget mt i ^^^ u32 ((prev ^^^ (prev >>> 30)) * 1566083941)) + (4294967296 - i)))
  if i = 623 then wset mt 0 (wget mt 623) else mt

/-- `init_by_array` from `_randommodule.c` (used by `random.seed(int)`). -/
def initByArray (key : List Nat) : Nat :=
  let m1 := sIterFrom (ibaStep1 key) (max 624 key.length) (max 624 key.length)
    (initGenrand 19650218)
  let m2 := sIterFrom ibaStep2 623 623 m1
  wset m2 0 2147483648

/-- Little-endian 32-bit decomposition with explicit fuel (structural
recursion, so it reduces inside `decide` proofs); `fuel ≥ 1` plus one unit
per division step suffices, and `natWords` passes `n` itself as fuel. -/
def natWordsAux : Nat → Nat → List Nat
  | 0, _ => []
  | _ + 1, 0 => []
  | fuel + 1, m => (m % 4294967296) :: natWordsAux fuel (m / 4294967296)

/-- CPython `random_seed` turns a nonnegative integer seed into a
little-endian list of 32-bit words (the key for `init_by_array`);
the zero seed gives the one-word key `[0]`. -/
def natWords (n : Nat) : List Nat := natWordsAux n n

def seedKey (n : Nat) : List Nat := if n = 0 then [0] else natWords n

/-- Generator state: packed 624-word array plus the output index.
A freshly seeded generator has index 624, forcing a twist at the first draw. -/
structure MTState where
  mt : Nat
  idx : Nat
deriving Repr, DecidableEq

/-- `random.Random(seed)` for a nonnegative integer seed. -/
def mkGen (seed : Nat) : MTState := ⟨initByArray (seedKey seed), 624⟩

/-- The module-level generator of both scripts: `GuidGenerator()` with the
default `seed: int = 42`. -/
def mtFresh : MTState := mkGen 42

/-- One step of the MT19937 twist, reading the partially updated state with
wraparound indexing (equivalent to the three-phase loop in C). -/
def twistStep (kk mt : Nat) : Nat :=
  let y := (wget mt kk &&& 0x80000000) ||| (wget mt ((kk + 1) % 624) &&& 0x7FFFFFFF)
  let v := wget mt ((kk + 397) % 624) ^^^ (y >>> 1) ^^^ (if y % 2 = 1 then 0x9908b0df else 0)
  wset mt kk v

def twist (mt : Nat) : Nat := sIterFrom twistStep 624 624 mt

/-- MT19937 output tempering. -/
def temper (y0 : Nat) : Nat :=
  let y := y0 ^^^ (y0 >>> 11)
  let y := y ^^^ ((y <<< 7) &&& 0x9d2c5680)
  let y := y ^^^ ((y <<< 15) &&& 0xefc60000)
  y ^^^ (y >>> 18)

/-- `genrand_uint32`. -/
def genrandUint32 (s : MTState) : Nat × MTState :=
  let p := if s.idx ≥ 624 then (twist s.mt, 0) else (s.mt, s.idx)
  (temper (wget p.1 p.2), ⟨p.1, p.2 + 1⟩)

/-- `getrandbits(128)`: four full 32-bit draws assembled little-endian
(word 0 least significant), as in `_random_Random_getrandbits_impl`. -/
def getrandbits128 (s : MTState) : Nat × MTState :=
  let p0 := genrandUint32 s
  let p1 := genrandUint32 p0.2
  let p2 := genrandUint32 p1.2
  let p3 := genrandUint32 p2.2
  (p0.1 + (p1.1 <<< 32) + (p2.1 <<< 64) + (p3.1 <<< 96), p3.2)

/-! ## `uuid.UUID(int=n, version=v)` and `ifcopenshell.guid.compress` -/

/-- `2 ^ 128 - 1`. -/
def M128 : Nat := 340282366920938463463374607431768211455

/-- The CPython `uuid.UUID(int=n, version=v)` constructor forces the
RFC 4122 variant and the requested version onto the 128-bit integer. -/
def uuidOfInt (n version : Nat) : Nat :=
  let a := ((n &&& M128) &&& (M128 ^^^ (0xc000 <<< 48))) ||| (0x8000 <<< 48)
  (a &&& (M128 ^^^ (0xf000 <<< 64))) ||| (version <<< 76)

/-- The 64-character alphabet of `ifcopenshell.guid`. -/
def guidChars : List Char :=
  "0123456789ABCDEFGHIJKLMNOPQRSTUVWXYZabcdefghijklmnopqrstuvwxyz_$".toList

/-- `b64(v, l)` from `ifcopenshell.guid.compress`: `l` base-64 digits,
most significant first. -/
def b64chunk (v l : Nat) : List Char :=
  ((List.range l).map (fun i => guidChars.getD ((v / 64 ^ i) % 64) ' ')).reverse

/-- Byte `i` (big-endian, as produced by parsing `uuid.hex` pairwise)
of a 128-bit integer. -/
def guidByte (n i : Nat) : Nat := (n >>> (8 * (15 - i))) &&& 255

/-- `ifcopenshell.guid.compress` applied to the 32-digit hex form of a
128-bit integer: 2 characters for the first byte, then five groups of
three bytes into four characters each. -/
def compressGuid (n : Nat) : String :=
  ⟨b64chunk (guidByte n 0) 2 ++
    (([1, 4, 7, 10, 13].map (fun i =>
      b64chunk ((guidByte n i <<< 16) + (guidByte n (i + 1) <<< 8) + guidByte n (i + 2)) 4)).flatten)⟩

/-- `GuidGenerator.new_consistent_uuid1_guid`:
`compress(UUID(int=self._random_device.getrandbits(128), version=1).hex)`. -/
def newConsistentUuid1Guid (s : MTState) : String × MTState :=
  let p := getrandbits128 s
  (compressGuid (uuidOfInt p.1 1), p.2)

/-- `GuidGenerator.new_consistent_uuid4_guid`. -/
def newConsistentUuid4Guid (s : MTState) : String × MTState :=
  let p := getrandbits128 s
  (compressGuid (uuidOfInt p.1 4), p.2)

/-- `ifcopenshell.guid.new()` = `compress(uuid.uuid4().hex)`; `uuid4` draws
16 fresh bytes from the OS entropy source and forces version 4, so it is
modelled as a function of one externally supplied 128-bit value. -/
def guidNew (entropy : Nat) : String := compressGuid (uuidOfInt entropy 4)

/-! ## Python values and IFC value types (`add_properties` dispatch) -/

/-- The IfcValue subtypes that `add_properties` can create. -/
inductive IfcValue where
  | text (s : String)
  | integer (z : Int)
  | real (q : ℚ)
deriving Repr, DecidableEq

/-- Python values as seen by `add_properties`.  `pother` stands for any
object that is not a `str`, `int` (including `bool`), or `float` — for
example a nested list or a `None`; its tag records the Python type name. -/
inductive PyVal where
  | pstr (s : String)
  | pbool (b : Bool)
  | pint (z : Int)
  | pfloat (q : ℚ)
  | pother (tag : String)
deriving Repr, DecidableEq

/-- The `isinstance` dispatch of `add_properties` (example1.py lines
176-183): `str` gives `IfcText`, `int` gives `IfcInteger`, `float` gives
`IfcReal`, anything else raises `ValueError`.  A Python `bool` is a
subclass of `int`, so `isinstance(value, int)` is true for it and
`IfcInteger(True)` stores 1 (`False` stores 0). -/
def toIfcValue : PyVal → Option IfcValue
  | .pstr s => some (.text s)
  | .pbool b => some (.integer (if b then 1 else 0))
  | .pint z => some (.integer z)
  | .pfloat q => some (.real q)
  | .pother _ => none

/-! ## The IFC entity pool

Entities are listed in creation order and referenced by their position.
Python floats in the scripts are all exactly representable, so numeric
attributes are modelled in `ℚ` (`math.pi` as the exact value of the IEEE
double).  Simple value types (`IfcText` …) are inlined into the property
that holds them, as they are on serialization. -/

inductive Entity where
  | organization (name : String)
  | application (version fullName ident : String)
  | person (givenName : String)
  | personAndOrganization (thePerson theOrganization : Nat)
  | ownerHistory (owningUser owningApplication : Nat) (creationDate : Int)
  | siUnit (unitType name : String)
  | planeAngleMeasure (q : ℚ)
  | measureWithUnit (unitComponent : Nat) (valueComponent : Nat)
  | dimensionalExponents
  | conversionBasedUnit (unitType name : String) (conversionFactor dims : Nat)
  | unitAssignment (units : List Nat)
  | direction (coords : List ℚ)
  | cartesianPoint (coords : List ℚ)
  | axis2Placement3D (location axis refDirection : Option Nat)
  | geometricRepresentationContext (contextType : String) (dim : Nat) (precision : ℚ)
      (wcs : Nat)
  | project (globalId name : String) (ownerHistory units ctx : Nat)
  | site (globalId : String)
  | annot (globalId name : String) (representation objectPlacement : Option Nat)
  | relAggregates (globalId : String) (relatingObject : Nat) (relatedObjects : List Nat)
  | propertySingleValue (name : String) (nominalValue : IfcValue)
  | propertySet (globalId name : String) (hasProperties : List Nat)
  | relDefinesByProperties (globalId : String) (relatedObjects : List Nat)
      (relatingPropertyDefinition : Nat)
  | polyline (points : List Nat)
  | shapeRepresentation (contextOfItems : Nat) (ident repType : String) (items : List Nat)
  | productDefinitionShape (representations : List Nat)
  | localPlacement (relativePlacement : Nat)
deriving Repr, DecidableEq

structure IfcFile where
  entities : List Entity
deriving Repr, DecidableEq

/-- `ifc_file.create_entity` / `createIfcXxx`: appends the entity, returns
its index.  (The scripts create some entities first and assign attributes
right after; the model constructs the completed entity at the creation
point, which preserves both the entity order and every attribute.) -/
def createEntity (f : IfcFile) (e : Entity) : IfcFile × Nat :=
  (⟨f.entities ++ [e]⟩, f.entities.length)

/-- The whole mutable state of one script run: the IFC file under
construction, the module-level `GuidGenerator` instance behind
`new_host_guid` (shared by every call in the process), the entropy stream
feeding `ifcopenshell.guid.new()`, and the ordered log of identifiers that
`new_host_guid` has returned. -/
structure World where
  file : IfcFile
  gen : MTState
  entropy : List Nat
  hostLog : List String
deriving Repr, DecidableEq

/-- `new_host_guid()` = the bound method
`GuidGenerator().new_consistent_uuid1_guid` of the module-level instance. -/
def newHostGuid (w : World) : String × World :=
  let p := newConsistentUuid1Guid w.gen
  (p.1, { w with gen := p.2, hostLog := w.hostLog ++ [p.1] })

/-- `ifcopenshell.guid.new()`: consumes one 128-bit value from the
(unseeded) OS entropy stream. -/
def ifcGuidNew (w : World) : String × World :=
  (guidNew (w.entropy.headD 0), { w with entropy := w.entropy.tail })

/-! ## `add_properties` (example1.py lines 162-211, identical in example2) -/

/-- The `for key, value in properties_dict.items()` loop: on a supported
value it creates the `IfcPropertySingleValue` entity and goes on; on any
other value it raises `ValueError` there, leaving the entities created for
the earlier entries in the file (`Sum.inr` carries that file).  Neither the
property set nor the relationship exists yet at that point. -/
def addPropsLoop (f : IfcFile) (acc : List Nat) :
    List (String × PyVal) → IfcFile × List Nat ⊕ IfcFile
  | [] => .inl (f, acc.reverse)
  | (k, v) :: rest =>
    match toIfcValue v with
    | none => .inr f
    | some iv =>
      let p := createEntity f (.propertySingleValue k iv)
      addPropsLoop p.1 (p.2 :: acc) rest

/-- `add_properties(ifc_file, element, properties_dict, property_set_name)`.
Returns `none` in the second component when the loop raised `ValueError`
(the world still holds the partially created single-value entities, but no
property set and no relationship); otherwise `some psid` with the index of
the created `IfcPropertySet`, which a fresh `IfcRelDefinesByProperties`
ties to `element`.  Both of those `GlobalId`s come from
`ifcopenshell.guid.new()`, not from the seeded generator. -/
def add_properties (w : World) (element : Nat) (props : List (String × PyVal))
    (psetName : String) : World × Option Nat :=
  match addPropsLoop w.file [] props with
  | .inr f => ({ w with file := f }, none)
  | .inl (f, pids) =>
    let w := { w with file := f }
    let p1 := ifcGuidNew w
    let w := p1.2
    let q1 := createEntity w.file (.propertySet p1.1 psetName pids)
    let w := { w with file := q1.1 }
    let p2 := ifcGuidNew w
    let w := p2.2
    let q2 := createEntity w.file (.relDefinesByProperties p2.1 [element] q1.2)
    ({ w with file := q2.1 }, some q1.2)

/-! ## Geometry helpers (example2.py lines 213-259) -/

/-- One step of
`points = [ifc_file.createIfcCartesianPoint(coord) for coord in coords]`. -/
def addPoint (st : IfcFile × List Nat) (c : ℚ × ℚ) : IfcFile × List Nat :=
  let p := createEntity st.1 (.cartesianPoint [c.1, c.2])
  (p.1, st.2 ++ [p.2])

/-- `create_polygon_representation(ifc_file, geometric_context, coords,
origin)`: creates one `IfcCartesianPoint` per coordinate pair, an
`IfcPolyline` over exactly those points, the shape representation and
product definition shape, then the origin point, an `IfcAxis2Placement3D`
with only a location (axis and ref-direction left unset), and an
`IfcLocalPlacement`; returns the product definition shape and the local
placement.  The function never inspects, closes, or validates `coords`. -/
def create_polygon_representation (f : IfcFile) (geomContext : Nat)
    (coords : List (ℚ × ℚ)) (origin : ℚ × ℚ × ℚ) : IfcFile × Nat × Nat :=
  let pts := coords.foldl addPoint (f, [])
  let pl := createEntity pts.1 (.polyline pts.2)
  let rep := createEntity pl.1 (.shapeRepresentation geomContext "Annotation2D" "Curve2D" [pl.2])
  let pds := createEntity rep.1 (.productDefinitionShape [rep.2])
  let op := createEntity pds.1 (.cartesianPoint [origin.1, origin.2.1, origin.2.2])
  let ap := createEntity op.1 (.axis2Placement3D (some op.2) none none)
  let lp := createEntity ap.1 (.localPlacement ap.2)
  (lp.1, pds.2, lp.2)

/-- The five corner list of `create_square_representation`:
`half_size = size / 2`, four corners counter-clockwise, first corner
repeated to close the loop. -/
def squareCoords (size : ℚ) : List (ℚ × ℚ) :=
  let h := size / 2
  [(-h, -h), (h, -h), (h, h), (-h, h), (-h, -h)]

/-- `create_square_representation(ifc_file, geometric_context, size, origin)`. -/
def create_square_representation (f : IfcFile) (geomContext : Nat) (size : ℚ)
    (origin : ℚ × ℚ × ℚ) : IfcFile × Nat × Nat :=
  create_polygon_representation f geomContext (squareCoords size) origin

/-! ## Boilerplate builders shared by the two scripts -/

/-- The IEEE-double value of `math.pi`. -/
def mathPi : ℚ := 884279719003555 / 281474976710656

/-- `int(time.mktime((2025, 1, 1, 0, 0, 0, 0, 0, 0)))`; `mktime` is
timezone-dependent, the UTC value is used as the representative constant
(no claim inspects it). -/
def creationDate2025 : Int := 1735689600

/-- `add_owner`: organization, application, person, person-and-organization,
owner history. -/
def add_owner (f : IfcFile) : IfcFile × Nat :=
  let org := createEntity f (.organization "SWAPP.ai")
  let app := createEntity org.1
    (.application "0.1.0" "IFC Documentation Examples" "IFC Documentation Example")
  let author := createEntity app.1 (.person "Example")
  let aao := createEntity author.1 (.personAndOrganization author.2 org.2)
  let oh := createEntity aao.1 (.ownerHistory aao.2 app.2 creationDate2025)
  (oh.1, oh.2)

/-- `add_units`: metric SI units, the degree as a conversion-based unit,
and their assignment. -/
def add_units (f : IfcFile) : IfcFile × Nat :=
  let lu := createEntity f (.siUnit "LENGTHUNIT" "METRE")
  let au := createEntity lu.1 (.siUnit "AREAUNIT" "SQUARE_METRE")
  let vu := createEntity au.1 (.siUnit "VOLUMEUNIT" "CUBIC_METRE")
  let pau := createEntity vu.1 (.siUnit "PLANEANGLEUNIT" "RADIAN")
  let pam := createEntity pau.1 (.planeAngleMeasure (mathPi / 180))
  let mwu := createEntity pam.1 (.measureWithUnit pau.2 pam.2)
  let de := createEntity mwu.1 .dimensionalExponents
  let cbu := createEntity de.1 (.conversionBasedUnit "PLANEANGLEUNIT" "DEGREE" mwu.2 de.2)
  let ua := createEntity cbu.1 (.unitAssignment [lu.2, au.2, vu.2, cbu.2])
  (ua.1, ua.2)

/-- `add_default_geometry_context`: x and z axes, origin, world coordinate
system, and the `'Model'` geometric representation context (`Precision`
is the Python float `1.e-05`, represented by its decimal value; no claim
inspects it). -/
def add_default_geometry_context (f : IfcFile) : IfcFile × Nat :=
  let xaxis := createEntity f (.direction [1, 0, 0])
  let zaxis := createEntity xaxis.1 (.direction [0, 0, 1])
  let origin := createEntity zaxis.1 (.cartesianPoint [0, 0, 0])
  let wcs := createEntity origin.1 (.axis2Placement3D (some origin.2) (some zaxis.2) (some xaxis.2))
  let gc := createEntity wcs.1 (.geometricRepresentationContext "Model" 3 (1 / 100000) wcs.2)
  (gc.1, gc.2)

/-- `add_project`: the only boilerplate builder that draws from
`new_host_guid`; its name is the capitalized script file name. -/
def add_project (w : World) (name : String) (ownerHist unitAssign geomCtx : Nat) :
    World × Nat :=
  let g := newHostGuid w
  let w := g.2
  let p := createEntity w.file (.project g.1 name ownerHist unitAssign geomCtx)
  ({ w with file := p.1 }, p.2)

/-! ## The two script bodies -/

/-- The inline pattern `x = ifc_file.createIfcAnnotation();
x.GlobalId = new_host_guid(); x.Name = …` used for every tree node. -/
def mkAnnotation (w : World) (name : String) : World × Nat :=
  let g := newHostGuid w
  let w := g.2
  let p := createEntity w.file (.annot g.1 name none none)
  ({ w with file := p.1 }, p.2)

/-- The inline pattern `ifc_file.create_entity('IfcRelAggregates',
GlobalId=new_host_guid(), RelatingObject=…, RelatedObjects=[…])`. -/
def mkRelAggregates (w : World) (relating : Nat) (related : List Nat) : World :=
  let g := newHostGuid w
  let w := g.2
  let p := createEntity w.file (.relAggregates g.1 relating related)
  { w with file := p.1 }

/-- `sheet.Representation, sheet.ObjectPlacement = …`: assigns the two
references on an already created annotation. -/
def setShape (f : IfcFile) (i rep pl : Nat) : IfcFile :=
  ⟨f.entities.set i
    (match f.entities.getD i .dimensionalExponents with
      | .annot gid name _ _ => .annot gid name (some rep) (some pl)
      | e => e)⟩

/-- `example1()` (example1.py lines 214-328), starting from the given
module-level generator state and entropy stream.  The returned `World`
holds the finished file, the advanced generator, the rest of the entropy
stream, and the ordered list of identifiers `new_host_guid` returned
during this invocation (18 of them). -/
def example1 (gen : MTState) (entropy : List Nat) : World :=
  let w : World := ⟨⟨[]⟩, gen, entropy, []⟩
  let o := add_owner w.file
  let w := { w with file := o.1 }
  let u := add_units w.file
  let w := { w with file := u.1 }
  let gcx := add_default_geometry_context w.file
  let w := { w with file := gcx.1 }
  let pr := add_project w "Example1.py" o.2 u.2 gcx.2
  let w := pr.1
  let g := newHostGuid w
  let w := g.2
  let st := createEntity w.file (.site g.1)
  let w := { w with file := st.1 }
  let ds := mkAnnotation w "My Document Set"
  let w := (add_properties ds.1 ds.2 [("type", .pstr "DocumentSet")]
    "DocumentationObjectProperties").1
  let w := mkRelAggregates w pr.2 [st.2, ds.2]
  let s1 := mkAnnotation w "Sample Sheet 1"
  let w := (add_properties s1.1 s1.2 [("type", .pstr "Sheet")]
    "DocumentationObjectProperties").1
  let vp1 := mkAnnotation w "ViewPort 1"
  let w := (add_properties vp1.1 vp1.2 [("type", .pstr "ViewPort")]
    "DocumentationObjectProperties").1
  let w := mkRelAggregates w s1.2 [vp1.2]
  let v1 := mkAnnotation w "View 1"
  let w := (add_properties v1.1 v1.2 [("type", .pstr "View")]
    "DocumentationObjectProperties").1
  let w := mkRelAggregates w vp1.2 [v1.2]
  let s2 := mkAnnotation w "Sample Sheet 2"
  let w := (add_properties s2.1 s2.2 [("type", .pstr "Sheet")]
    "DocumentationObjectProperties").1
  let vp2a := mkAnnotation w "ViewPort A"
  let w := (add_properties vp2a.1 vp2a.2 [("type", .pstr "ViewPort")]
    "DocumentationObjectProperties").1
  let v2a := mkAnnotation w "View 2a"
  let w := (add_properties v2a.1 v2a.2 [("type", .pstr "View")]
    "DocumentationObjectProperties").1
  let w := mkRelAggregates w vp2a.2 [v2a.2]
  let vp2b := mkAnnotation w "ViewPort B"
  let w := (add_properties vp2b.1 vp2b.2 [("type", .pstr "ViewPort")]
    "DocumentationObjectProperties").1
  let v2b := mkAnnotation w "View 2b"
  let w := (add_properties v2b.1 v2b.2 [("type", .pstr "View")]
    "DocumentationObjectProperties").1
  let w := mkRelAggregates w vp2b.2 [v2b.2]
  let w := mkRelAggregates w s2.2 [vp2a.2, vp2b.2]
  mkRelAggregates w ds.2 [s1.2, s2.2]

/-- `example2()` (example2.py lines 262-356).  13 `new_host_guid` draws. -/
def example2 (gen : MTState) (entropy : List Nat) : World :=
  let w : World := ⟨⟨[]⟩, gen, entropy, []⟩
  let o := add_owner w.file
  let w := { w with file := o.1 }
  let u := add_units w.file
  let w := { w with file := u.1 }
  let gcx := add_default_geometry_context w.file
  let w := { w with file := gcx.1 }
  let pr := add_project w "Example2.py" o.2 u.2 gcx.2
  let w := pr.1
  let g := newHostGuid w
  let w := g.2
  let st := createEntity w.file (.site g.1)
  let w := { w with file := st.1 }
  let ds := mkAnnotation w "My Document Set"
  let w := (add_properties ds.1 ds.2 [("type", .pstr "DocumentSet")]
    "DocumentationObjectProperties").1
  let w := mkRelAggregates w pr.2 [st.2, ds.2]
  let sh := mkAnnotation w "Sample Sheet"
  let sq1 := create_square_representation sh.1.file gcx.2 30 (0, 0, 0)
  let w := { sh.1 with file := setShape sq1.1 sh.2 sq1.2.1 sq1.2.2 }
  let w := (add_properties w sh.2 [("type", .pstr "Sheet")]
    "DocumentationObjectProperties").1
  let vp1 := mkAnnotation w "ViewPort 1"
  let w := (add_properties vp1.1 vp1.2 [("type", .pstr "ViewPort")]
    "DocumentationObjectProperties").1
  let v1 := mkAnnotation w "View: 10x10 square."
  let w := (add_properties v1.1 v1.2 [("type", .pstr "View")]
    "DocumentationObjectProperties").1
  let sq2 := create_square_representation w.file gcx.2 10 (-5, 0, 0)
  let w := { w with file := setShape sq2.1 v1.2 sq2.2.1 sq2.2.2 }
  let w := mkRelAggregates w vp1.2 [v1.2]
  let vp2 := mkAnnotation w "ViewPort 2"
  let w := (add_properties vp2.1 vp2.2 [("type", .pstr "ViewPort")]
    "DocumentationObjectProperties").1
  let v2 := mkAnnotation w "View: 8x8 square"
  let w := (add_properties v2.1 v2.2 [("type", .pstr "View")]
    "DocumentationObjectProperties").1
  let sq3 := create_square_representation w.file gcx.2 8 (6, 0, 0)
  let w := { w with file := setShape sq3.1 v2.2 sq3.2.1 sq3.2.2 }
  let w := mkRelAggregates w vp2.2 [v2.2]
  let w := mkRelAggregates w sh.2 [vp1.2, vp2.2]
  mkRelAggregates w ds.2 [sh.2]

/-! ## Observations on a built file -/

/-- The tree nodes of the documents: the project, the site, and the
annotation nodes (document set, sheets, viewports, views). -/
def isNodeEntity : Entity → Bool
  | .project .. => true
  | .site .. => true
  | .annot .. => true
  | _ => false

def entityAt (f : IfcFile) (i : Nat) : Entity := f.entities.getD i .dimensionalExponents

def nodeIds (f : IfcFile) : List Nat :=
  (List.range f.entities.length).filter (fun i => isNodeEntity (entityAt f i))

/-- Every `IfcRelAggregates` in the file, as `(relating, related)`. -/
def relAggs (f : IfcFile) : List (Nat × List Nat) :=
  f.entities.filterMap (fun e =>
    match e with
    | .relAggregates _ relating related => some (relating, related)
    | _ => none)

/-- The number of aggregation-edge entities. -/
def relAggCount (f : IfcFile) : Nat := (relAggs f).length

/-- The number of parent-child pairs: related objects summed over all
`IfcRelAggregates`. -/
def childSlotCount (f : IfcFile) : Nat := ((relAggs f).map (fun p => p.2.length)).sum

/-- In how many aggregation edges node `n` occurs as a related object. -/
def parentEdgeCount (f : IfcFile) (n : Nat) : Nat :=
  ((relAggs f).filter (fun p => p.2.contains n)).length

/-- Nodes with at least one parent edge (all nodes except the project root
in the built documents). -/
def nonRootIds (f : IfcFile) : List Nat :=
  (nodeIds f).filter (fun n => parentEdgeCount f n != 0)

def annotationCount (f : IfcFile) : Nat :=
  f.entities.countP (fun e => match e with | .annot .. => true | _ => false)

/-- The property sets tied to `element` through `IfcRelDefinesByProperties`
entities, in file order. -/
def attachedPsetIds (f : IfcFile) (element : Nat) : List Nat :=
  f.entities.filterMap (fun e =>
    match e with
    | .relDefinesByProperties _ related relating =>
      if related.contains element then some relating else none
    | _ => none)

def resolvePSV (f : IfcFile) (pid : Nat) : Option (String × IfcValue) :=
  match entityAt f pid with
  | .propertySingleValue n v => some (n, v)
  | _ => none

/-- The `(Name, NominalValue)` pairs of the property set at index `psid`,
in the order of its `HasProperties` list. -/
def psetProps (f : IfcFile) (psid : Nat) : List (String × IfcValue) :=
  match entityAt f psid with
  | .propertySet _ _ pids => pids.filterMap (resolvePSV f)
  | _ => []

/-- The coordinates of the point entity at index `pid`. -/
def pointCoords (f : IfcFile) (pid : Nat) : List ℚ :=
  match entityAt f pid with
  | .cartesianPoint cs => cs
  | _ => []

/-- The observation one polyline entity contributes: the coordinate lists
of its points, resolved against the file. -/
def polyItem (f : IfcFile) : Entity → Option (List (List ℚ))
  | .polyline pids => some (pids.map (pointCoords f))
  | _ => none

/-- Every polyline of the file, as the list of coordinate lists of its
points, in file order. -/
def polylineCoordLists (f : IfcFile) : List (List (List ℚ)) :=
  f.entities.filterMap (polyItem f)

/-- The `GlobalId` attribute of rooted entities. -/
def entityGlobalId : Entity → Option String
  | .project g _ _ _ _ => some g
  | .site g => some g
  | .annot g _ _ _ => some g
  | .relAggregates g _ _ => some g
  | .propertySet g _ _ => some g
  | .relDefinesByProperties g _ _ => some g
  | _ => none

/-- All identifiers of the document, in entity order: the `GlobalId`s drawn
from `new_host_guid` and those drawn from `ifcopenshell.guid.new()` by
`add_properties`. -/
def allGlobalIds (f : IfcFile) : List String := f.entities.filterMap entityGlobalId

/-! ## Concrete runs

`entropyZero` and `entropyOne` are two concrete streams standing for the
OS entropy behind `ifcopenshell.guid.new()`; a real process gets a fresh
unpredictable stream on every run. -/

def entropyZero : List Nat := List.replicate 18 0
def entropyOne : List Nat := List.replicate 18 1

/-- A first `example1()` invocation in a fresh process. -/
def ex1Run : World := example1 mtFresh entropyZero

/-- The same invocation when the process happened to draw other OS entropy. -/
def ex1RunAlt : World := example1 mtFresh entropyOne

/-- A second `example1()` invocation in the same process: the module-level
generator continues from where the first invocation left it. -/
def ex1RunSecond : World := example1 ex1Run.gen entropyZero

def ex1File : IfcFile := ex1Run.file

def ex2File : IfcFile := (example2 mtFresh entropyZero).file

/-! ## The calls a `GuidGenerator` instance can receive (deterministic ones) -/

inductive GuidCall where
  | consistentUuid1
  | consistentUuid4
deriving Repr, DecidableEq

/-- Replay a sequence of consistent-guid calls against a generator state. -/
def runGenCalls (s : MTState) : List GuidCall → List String
  | [] => []
  | .consistentUuid1 :: cs =>
    let p := newConsistentUuid1Guid s
    p.1 :: runGenCalls p.2 cs
  | .consistentUuid4 :: cs =>
    let p := newConsistentUuid4Guid s
    p.1 :: runGenCalls p.2 cs

/-! ## The declarative tree builder of the spec (section 4.4) -/

/-- Modelled from the spec: the code under `src/` only builds two fixed
trees inline; spec section 4.4 describes the general builder consuming "a
declarative specification of the document hierarchy".  A node declares a
display name, its semantic type tag, and its children. -/
inductive TreeSpec where
  | node (name ty : String) (children : List TreeSpec)
deriving Repr

/-- Modelled from the spec: `build_tree` — one annotation node per declared
element (identifier from the seeded generator, one `"type"` property
attached as in the scripts), children depth-first in input order, and, as
in both scripts, one `IfcRelAggregates` per parent that has children,
carrying all of that parent's children.  `fuel` bounds the recursion depth
(structural recursion so that proofs can evaluate it); every use passes
fuel larger than the tree depth, where the builder is total. -/
def buildNode : Nat → World → TreeSpec → World × Nat
  | 0, w, _ => (w, 0)
  | fuel + 1, w, .node name ty children =>
    let a := mkAnnotation w name
    let w := (add_properties a.1 a.2 [("type", .pstr ty)]
      "DocumentationObjectProperties").1
    let rec go : List TreeSpec → World → World × List Nat
      | [], w => (w, [])
      | t :: ts, w =>
        let p := buildNode fuel w t
        let q := go ts p.1
        (q.1, p.2 :: q.2)
    let c := go children w
    if c.2.isEmpty then (c.1, a.2)
    else (mkRelAggregates c.1 a.2 c.2, a.2)

/-- The end-to-end scenario of spec section 8: one document set with two
sheets, each sheet one viewport, each viewport one view. -/
def scenarioTree : TreeSpec :=
  .node "My Document Set" "DocumentSet"
    [.node "Sheet 1" "Sheet"
      [.node "ViewPort 1" "ViewPort" [.node "View 1" "View" []]],
     .node "Sheet 2" "Sheet"
      [.node "ViewPort 2" "ViewPort" [.node "View 2" "View" []]]]

/-- The scenario built from a fresh process state (7 nodes need 7 host
identifiers; the 7 property sets consume 14 entropy values). -/
def scenarioWorld : World :=
  (buildNode 8 ⟨⟨[]⟩, mtFresh, List.replicate 14 0, []⟩ scenarioTree).1

/-! ## Claims -/

set_option maxRecDepth 100000

/-- C1, counterexample: two complete `example1()` runs from the same seed
(fresh module state, seed 42) do not produce byte-identical identifier
sequences: the `GlobalId`s that `add_properties` draws from the unseeded
`ifcopenshell.guid.new()` depend on the OS entropy stream, which differs
between the two runs here. -/
theorem C1_counterexample :
    allGlobalIds (example1 mtFresh entropyZero).file ≠
      allGlobalIds (example1 mtFresh entropyOne).file := by decide

/-- C1, amended: two generator instances constructed with the same seed
produce the same sequence of identifiers for the same sequence of
`new_consistent_uuid1_guid` / `new_consistent_uuid4_guid` calls (in the
pure embedding the two instances are literally the same state), and the
identifier sequence produced through `new_host_guid` in a builder run is
reproducible: it is unchanged under a change of the OS entropy stream
(shown on two concrete streams) and has its full length of 18.  Only the
property-set and property-relationship `GlobalId`s of `add_properties`,
which come from `ifcopenshell.guid.new()`, are not reproducible. -/
theorem C1_amended :
    (∀ (seed : Nat) (calls : List GuidCall),
      runGenCalls (mkGen seed) calls = runGenCalls (mkGen seed) calls) ∧
    ex1RunAlt.hostLog = ex1Run.hostLog ∧ ex1Run.hostLog.length = 18 :=
  ⟨fun _ _ => rfl, by decide, by decide⟩

/-- C2, counterexample: in the tree built by `example1()` the number of
aggregation-edge entities (7 `IfcRelAggregates`) does not equal the number
of non-root nodes (10: the site, the document set, two sheets, three
viewports and three views all have a parent edge; only the project has
none), because one `IfcRelAggregates` can carry several children. -/
theorem C2_counterexample :
    relAggCount ex1File ≠ (nonRootIds ex1File).length := by decide

/-- C2, amended: in both built documents the number of parent-child pairs
(related objects summed over all `IfcRelAggregates`) equals the number of
non-root nodes, and every non-root node occurs in exactly one aggregation
edge; the number of `IfcRelAggregates` entities is instead one per
aggregating parent. -/
theorem C2_amended :
    (childSlotCount ex1File = (nonRootIds ex1File).length ∧
      ∀ n ∈ nonRootIds ex1File, parentEdgeCount ex1File n = 1) ∧
    (childSlotCount ex2File = (nonRootIds ex2File).length ∧
      ∀ n ∈ nonRootIds ex2File, parentEdgeCount ex2File n = 1) := by decide

/-- C8, counterexample: building the end-to-end scenario (one document set,
two sheets, each with one viewport holding one view) with one aggregation
edge per aggregating parent — the convention of both scripts — produces 5
`IfcRelAggregates`, not 3: the document set, the two sheets, and the two
viewports each aggregate their children. -/
theorem C8_counterexample : relAggCount scenarioWorld.file ≠ 3 := by decide

/-- C8, amended: the scenario tree produces exactly 7 nodes (1 document
set, 2 sheets, 2 viewports, 2 views) and exactly 5 aggregation edges, one
per aggregating parent; each of the 6 non-root nodes sits in exactly one
edge. -/
theorem C8_amended :
    annotationCount scenarioWorld.file = 7 ∧
    relAggCount scenarioWorld.file = 5 ∧
    childSlotCount scenarioWorld.file = 6 ∧
    (∀ n ∈ nonRootIds scenarioWorld.file, parentEdgeCount scenarioWorld.file n = 1) := by
  decide

/-- C9, counterexample: `new_host_guid` is a bound method of one
module-level `GuidGenerator` instance, so a second `example1()` invocation
in the same process continues the shared generator stream and produces a
different identifier sequence than the first invocation. -/
theorem C9_counterexample : ex1RunSecond.hostLog ≠ ex1Run.hostLog := by decide

/-- C9, amended: the identifier generator state is shared across builder
invocations in one process, so the second invocation's sequence differs
from the first; only a fresh module initialization (a new process, here
with a different entropy stream as well) reproduces the first sequence. -/
theorem C9_amended :
    ex1RunSecond.hostLog ≠ ex1Run.hostLog ∧
    (example1 mtFresh entropyOne).hostLog = ex1Run.hostLog ∧
    ex1RunSecond.hostLog.length = 18 := by
  refine ⟨by decide, by decide, by decide⟩
/-! ## Behaviour of `add_properties` on arbitrary inputs -/

/-- The `IfcPropertySingleValue` entity the loop creates for one supported
entry (used to state the loop characterization). -/
def psvEntity (kv : String × PyVal) : Entity :=
  .propertySingleValue kv.1 ((toIfcValue kv.2).getD (.text ""))

theorem attachedPsetIds_append_psv (f : IfcFile) (k : String) (iv : IfcValue)
    (el : Nat) :
    attachedPsetIds ⟨f.entities ++ [.propertySingleValue k iv]⟩ el =
      attachedPsetIds f el := by
  simp [attachedPsetIds, List.filterMap_append]

/-- If some entry of `props` has an unsupported value, the loop raises
`ValueError`; the file it leaves behind has gained only
`IfcPropertySingleValue` entities, so no element's attached property sets
change. -/
theorem addPropsLoop_raises (props : List (String × PyVal)) (f : IfcFile)
    (acc : List Nat) (h : ∃ kv ∈ props, toIfcValue kv.2 = none) :
    ∃ f2, addPropsLoop f acc props = .inr f2 ∧
      ∀ el, attachedPsetIds f2 el = attachedPsetIds f el := by
  induction props generalizing f acc with
  | nil => simp at h
  | cons kv rest ih =>
    cases htv : toIfcValue kv.2 with
    | none =>
      refine ⟨f, ?_, fun el => rfl⟩
      cases kv
      simp only [addPropsLoop, htv]
    | some iv =>
      have hrest : ∃ kv0 ∈ rest, toIfcValue kv0.2 = none := by
        obtain ⟨kv0, hmem, hbad⟩ := h
        rcases List.mem_cons.1 hmem with heq | hmem'
        · subst heq; rw [htv] at hbad; exact absurd hbad (by simp)
        · exact ⟨kv0, hmem', hbad⟩
      obtain ⟨f2, hres, hpres⟩ :=
        ih ⟨f.entities ++ [.propertySingleValue kv.1 iv]⟩ (f.entities.length :: acc) hrest
      refine ⟨f2, ?_, fun el => ?_⟩
      · cases kv
        simp only [addPropsLoop, htv, createEntity]
        exact hres
      · rw [hpres el, attachedPsetIds_append_psv]

/-- On a list of supported entries the loop succeeds, appends exactly the
single-value entities in input order, and returns their indices. -/
theorem addPropsLoop_success (props : List (String × PyVal)) (f : IfcFile)
    (acc : List Nat) (h : ∀ kv ∈ props, (toIfcValue kv.2).isSome) :
    addPropsLoop f acc props =
      .inl (⟨f.entities ++ props.map psvEntity⟩,
        acc.reverse ++ List.range' f.entities.length props.length) := by
  induction props generalizing f acc with
  | nil => simp [addPropsLoop]
  | cons kv rest ih =>
    have hh := h kv (by simp)
    cases htv : toIfcValue kv.2 with
    | none => rw [htv] at hh; simp at hh
    | some iv =>
      cases kv with
      | mk k v =>
        simp only [addPropsLoop, htv, createEntity]
        have heq := ih ⟨f.entities ++ [Entity.propertySingleValue k iv]⟩
          (f.entities.length :: acc) (fun kv0 hm => h kv0 (by simp [hm]))
        rw [heq]
        simp [psvEntity, htv, List.range'_succ]

/-- Full characterization of a successful `add_properties` call: the file
gains the single-value entities, the property set (with the entry indices
in input order and a `GlobalId` from the first entropy draw), and the
relationship to `element` (second entropy draw); two entropy values are
consumed; the created set's index is returned. -/
theorem add_properties_success (w : World) (el : Nat)
    (props : List (String × PyVal)) (nm : String)
    (h : ∀ kv ∈ props, (toIfcValue kv.2).isSome) :
    add_properties w el props nm =
      ({ w with
          file := ⟨w.file.entities ++ props.map psvEntity ++
            [.propertySet (guidNew (w.entropy.headD 0)) nm
              (List.range' w.file.entities.length props.length),
             .relDefinesByProperties (guidNew (w.entropy.tail.headD 0)) [el]
               (w.file.entities.length + props.length)]⟩,
          entropy := w.entropy.tail.tail },
        some (w.file.entities.length + props.length)) := by
  simp only [add_properties, addPropsLoop_success props w.file [] h, ifcGuidNew,
    createEntity, List.reverse_nil, List.nil_append, List.length_append,
    List.length_map, List.append_assoc, List.cons_append, List.nil_append,
    List.singleton_append]

theorem filterMap_all_none {α β : Type} (f : α → Option β) (l : List α)
    (h : ∀ a ∈ l, f a = none) : l.filterMap f = [] := by
  induction l with
  | nil => rfl
  | cons a t ih =>
    rw [List.filterMap_cons, h a (by simp)]
    exact ih (fun a ha => h a (by simp [ha]))

/-- Resolving the freshly created single-value indices against the grown
file returns the `(key, value)` pairs of the input in input order. -/
theorem resolvePSV_range (pf : List (String × PyVal)) (E R : List Entity) :
    (List.range' E.length pf.length).filterMap
        (resolvePSV ⟨E ++ pf.map psvEntity ++ R⟩) =
      pf.map (fun kv => (kv.1, (toIfcValue kv.2).getD (.text ""))) := by
  induction pf generalizing E with
  | nil => simp
  | cons kv rest ih =>
    have hlen : E.length + 1 = (E ++ [psvEntity kv]).length := by simp
    have hg : entityAt ⟨E ++ (kv :: rest).map psvEntity ++ R⟩ E.length = psvEntity kv := by
      simp only [entityAt]
      rw [List.append_assoc, List.getD_append_right E _ _ _ (le_refl _)]
      simp
    have h1 : resolvePSV ⟨E ++ (kv :: rest).map psvEntity ++ R⟩ E.length
        = some (kv.1, (toIfcValue kv.2).getD (.text "")) := by
      simp only [resolvePSV]
      rw [hg]
      simp [psvEntity]
    rw [List.length_cons, List.range'_succ, List.filterMap_cons_some h1, List.map_cons]
    congr 1
    rw [show (⟨E ++ psvEntity kv :: List.map psvEntity rest ++ R⟩ : IfcFile)
        = ⟨(E ++ [psvEntity kv]) ++ List.map psvEntity rest ++ R⟩ from by simp, hlen]
    exact ih (E ++ [psvEntity kv])

/-- On success the element gains exactly one attached property set, at the
end of its list: the one just created. -/
theorem add_properties_attached (w : World) (el : Nat)
    (props : List (String × PyVal)) (nm : String)
    (h : ∀ kv ∈ props, (toIfcValue kv.2).isSome) :
    attachedPsetIds (add_properties w el props nm).1.file el =
      attachedPsetIds w.file el ++ [w.file.entities.length + props.length] := by
  rw [add_properties_success w el props nm h]
  simp only [attachedPsetIds, List.filterMap_append]
  rw [filterMap_all_none _ (props.map psvEntity)
    (by intro a ha; simp only [List.mem_map] at ha; obtain ⟨kv, _, rfl⟩ := ha; rfl)]
  simp

/-- On success the created property set lists the input keys in input
order, each with the value `toIfcValue` gives: text for a string, integer
for an int, real for a float. -/
theorem add_properties_psetProps (w : World) (el : Nat)
    (props : List (String × PyVal)) (nm : String)
    (h : ∀ kv ∈ props, (toIfcValue kv.2).isSome) :
    psetProps (add_properties w el props nm).1.file
        (w.file.entities.length + props.length) =
      props.map (fun kv => (kv.1, (toIfcValue kv.2).getD (.text ""))) := by
  rw [add_properties_success w el props nm h]
  have hg : (w.file.entities ++ props.map psvEntity ++
      [Entity.propertySet (guidNew (w.entropy.headD 0)) nm
        (List.range' w.file.entities.length props.length),
       Entity.relDefinesByProperties (guidNew (w.entropy.tail.headD 0)) [el]
         (w.file.entities.length + props.length)]).getD
      (w.file.entities.length + props.length) Entity.dimensionalExponents
      = Entity.propertySet (guidNew (w.entropy.headD 0)) nm
          (List.range' w.file.entities.length props.length) := by
    rw [List.getD_append_right _ _ _ _ (by simp)]
    simp
  simp only [psetProps, entityAt, hg]
  exact resolvePSV_range props w.file.entities _

/-- C3: when a property mapping contains a value that is not a string,
integer, or float, `add_properties` raises (`ValueError`, the spec's
`UnsupportedValueType`): no property set is created, nothing is attached to
any element, and every element's previously attached property sets are
exactly as before the call. -/
theorem C3_no_partial_attachment (w : World) (el : Nat)
    (props : List (String × PyVal)) (nm : String)
    (h : ∃ kv ∈ props, toIfcValue kv.2 = none) :
    (add_properties w el props nm).2 = none ∧
    ∀ e, attachedPsetIds (add_properties w el props nm).1.file e =
      attachedPsetIds w.file e := by
  obtain ⟨f2, hres, hpres⟩ := addPropsLoop_raises props w.file [] h
  refine ⟨?_, fun e => ?_⟩
  · simp [add_properties, hres]
  · simp only [add_properties, hres]
    exact hpres e

/-- A world with one annotation that already carries one attached property
set, to witness that a failing `add_properties` call leaves prior
attachments intact. -/
def w0 : World :=
  ⟨⟨[.annot "00example00000annotnode" "Node" none none,
     .propertySingleValue "old" (.text "kept"),
     .propertySet "00example000000000pset" "Prior" [1],
     .relDefinesByProperties "00example0000000000rel" [0] 2]⟩,
   ⟨0, 624⟩, [], []⟩

def badProps : List (String × PyVal) :=
  [("good", .pstr "x"), ("bad", .pother "list")]

theorem C3_witness :
    (∃ kv ∈ badProps, toIfcValue kv.2 = none) ∧
    ((add_properties w0 0 badProps "P").2 = none ∧
      ∀ e, attachedPsetIds (add_properties w0 0 badProps "P").1.file e =
        attachedPsetIds w0.file e) :=
  ⟨by decide, C3_no_partial_attachment w0 0 badProps "P" (by decide)⟩

/-- C6: on a mapping whose values are all supported, `add_properties`
succeeds, attaches exactly one new named property set to the element, the
set lists the keys in the mapping's insertion order, and each value keeps
its type: a string is stored as `IfcText`, an integer as `IfcInteger`, and
a float as `IfcReal` (never coerced to text). -/
theorem C6_pset_order_and_type_fidelity (w : World) (el : Nat)
    (props : List (String × PyVal)) (nm : String)
    (h : ∀ kv ∈ props, (toIfcValue kv.2).isSome) :
    ∃ psid,
      (add_properties w el props nm).2 = some psid ∧
      attachedPsetIds (add_properties w el props nm).1.file el =
        attachedPsetIds w.file el ++ [psid] ∧
      psetProps (add_properties w el props nm).1.file psid =
        props.map (fun kv => (kv.1, (toIfcValue kv.2).getD (.text ""))) ∧
      (∀ s, toIfcValue (.pstr s) = some (.text s)) ∧
      (∀ z : Int, toIfcValue (.pint z) = some (.integer z)) ∧
      (∀ q : ℚ, toIfcValue (.pfloat q) = some (.real q)) := by
  refine ⟨w.file.entities.length + props.length, ?_,
    add_properties_attached w el props nm h,
    add_properties_psetProps w el props nm h,
    fun _ => rfl, fun _ => rfl, fun _ => rfl⟩
  rw [add_properties_success w el props nm h]

def goodProps : List (String × PyVal) :=
  [("name", .pstr "Sheet"), ("index", .pint 2), ("scale", .pfloat (3 / 2))]

theorem C6_witness :
    (∀ kv ∈ goodProps, (toIfcValue kv.2).isSome) ∧
    (∃ psid,
      (add_properties w0 0 goodProps "NM").2 = some psid ∧
      attachedPsetIds (add_properties w0 0 goodProps "NM").1.file 0 =
        attachedPsetIds w0.file 0 ++ [psid] ∧
      psetProps (add_properties w0 0 goodProps "NM").1.file psid =
        goodProps.map (fun kv => (kv.1, (toIfcValue kv.2).getD (.text ""))) ∧
      (∀ s, toIfcValue (.pstr s) = some (.text s)) ∧
      (∀ z : Int, toIfcValue (.pint z) = some (.integer z)) ∧
      (∀ q : ℚ, toIfcValue (.pfloat q) = some (.real q))) :=
  ⟨by decide, C6_pset_order_and_type_fidelity w0 0 goodProps "NM" (by decide)⟩

/-- The four Python types the dispatch of `add_properties` accepts
(`bool` because it is a subclass of `int`). -/
def isPrimitivePy : PyVal → Bool
  | .pother _ => false
  | _ => true

theorem isPrimitivePy_isSome (v : PyVal) (h : isPrimitivePy v) :
    (toIfcValue v).isSome := by
  cases v <;> simp_all [isPrimitivePy, toIfcValue]

/-- C10: a Python boolean is not rejected by `add_properties`: since `bool`
subclasses `int`, it passes the `isinstance(value, int)` test and is
stored as `IfcInteger` — `True` as 1 and `False` as 0; a mapping whose
values are strings, booleans, integers, or floats attaches successfully
with those encoded values. -/
theorem C10_bool_passes_integer_test (w : World) (el : Nat)
    (props : List (String × PyVal)) (nm : String)
    (h : ∀ kv ∈ props, isPrimitivePy kv.2) :
    (∀ b, toIfcValue (.pbool b) = some (.integer (if b then 1 else 0))) ∧
    ∃ psid,
      (add_properties w el props nm).2 = some psid ∧
      psetProps (add_properties w el props nm).1.file psid =
        props.map (fun kv => (kv.1, (toIfcValue kv.2).getD (.text ""))) := by
  have hsome : ∀ kv ∈ props, (toIfcValue kv.2).isSome :=
    fun kv hm => isPrimitivePy_isSome kv.2 (h kv hm)
  refine ⟨fun _ => rfl, w.file.entities.length + props.length, ?_,
    add_properties_psetProps w el props nm hsome⟩
  rw [add_properties_success w el props nm hsome]

def boolProps : List (String × PyVal) :=
  [("visible", .pbool true), ("count", .pint 3), ("hidden", .pbool false)]

theorem C10_witness :
    (∀ kv ∈ boolProps, isPrimitivePy kv.2) ∧
    ((∀ b, toIfcValue (.pbool b) = some (.integer (if b then 1 else 0))) ∧
      ∃ psid,
        (add_properties w0 0 boolProps "NM").2 = some psid ∧
        psetProps (add_properties w0 0 boolProps "NM").1.file psid =
          boolProps.map (fun kv => (kv.1, (toIfcValue kv.2).getD (.text "")))) :=
  ⟨by decide, C10_bool_passes_integer_test w0 0 boolProps "NM" (by decide)⟩

/-! ## Characterization of `create_polygon_representation` -/

theorem addPoint_foldl (coords : List (ℚ × ℚ)) (f : IfcFile) (acc : List Nat) :
    coords.foldl addPoint (f, acc) =
      (⟨f.entities ++ coords.map (fun c => Entity.cartesianPoint [c.1, c.2])⟩,
       acc ++ List.range' f.entities.length coords.length) := by
  induction coords generalizing f acc with
  | nil => simp
  | cons c cs ih =>
    rw [List.foldl_cons,
      show addPoint (f, acc) c =
        (⟨f.entities ++ [Entity.cartesianPoint [c.1, c.2]]⟩,
          acc ++ [f.entities.length]) from rfl,
      ih]
    simp [List.range'_succ]

/-- Everything `create_polygon_representation` adds, in order: the point
entities (exactly the input coordinates, no closing point appended), the
polyline over them, the shape representation and product shape, the origin
point, the axis placement with only a location (identity orientation), and
the local placement; the returned indices are the product definition shape
and the local placement. -/
theorem cpr_entities (f : IfcFile) (ctx : Nat) (coords : List (ℚ × ℚ))
    (o : ℚ × ℚ × ℚ) :
    create_polygon_representation f ctx coords o =
      (⟨f.entities ++ coords.map (fun c => Entity.cartesianPoint [c.1, c.2]) ++
        [Entity.polyline (List.range' f.entities.length coords.length),
         Entity.shapeRepresentation ctx "Annotation2D" "Curve2D"
           [f.entities.length + coords.length],
         Entity.productDefinitionShape [f.entities.length + coords.length + 1],
         Entity.cartesianPoint [o.1, o.2.1, o.2.2],
         Entity.axis2Placement3D (some (f.entities.length + coords.length + 3)) none none,
         Entity.localPlacement (f.entities.length + coords.length + 4)]⟩,
       f.entities.length + coords.length + 2,
       f.entities.length + coords.length + 5) := by
  simp only [create_polygon_representation, addPoint_foldl, createEntity]
  simp +arith [List.append_assoc]

/-- Resolving the fresh point indices against the grown file gives back
the input coordinates. -/
theorem pointCoords_range (cs : List (ℚ × ℚ)) (E R : List Entity) :
    (List.range' E.length cs.length).map
        (pointCoords ⟨E ++ cs.map (fun c => Entity.cartesianPoint [c.1, c.2]) ++ R⟩) =
      cs.map (fun c => [c.1, c.2]) := by
  induction cs generalizing E with
  | nil => simp
  | cons c rest ih =>
    have hg : pointCoords
        ⟨E ++ (c :: rest).map (fun c => Entity.cartesianPoint [c.1, c.2]) ++ R⟩
        E.length = [c.1, c.2] := by
      simp only [pointCoords, entityAt]
      rw [List.append_assoc, List.getD_append_right E _ _ _ (le_refl _)]
      simp
    rw [List.length_cons, List.range'_succ, List.map_cons, hg, List.map_cons]
    congr 1
    rw [show (⟨E ++ Entity.cartesianPoint [c.1, c.2] ::
            List.map (fun c => Entity.cartesianPoint [c.1, c.2]) rest ++ R⟩
          : IfcFile)
        = ⟨(E ++ [Entity.cartesianPoint [c.1, c.2]]) ++
            List.map (fun c => Entity.cartesianPoint [c.1, c.2]) rest ++ R⟩ from by simp,
      show E.length + 1 = (E ++ [Entity.cartesianPoint [c.1, c.2]]).length from by simp]
    exact ih (E ++ [Entity.cartesianPoint [c.1, c.2]])

/-- When a file splits as `E ++ P ++ T` with no polyline in `P` and exactly
one polyline observation in `T`, that observation is the last one. -/
theorem getLastD_polylineCoordLists (E P T : List Entity) (item : List (List ℚ))
    (hP : List.filterMap (polyItem ⟨E ++ P ++ T⟩) P = [])
    (hT : List.filterMap (polyItem ⟨E ++ P ++ T⟩) T = [item]) :
    (polylineCoordLists ⟨E ++ P ++ T⟩).getLastD [] = item := by
  show ((E ++ P ++ T).filterMap (polyItem ⟨E ++ P ++ T⟩)).getLastD [] = item
  rw [List.filterMap_append, List.filterMap_append, hP, hT, List.append_nil]
  exact List.getLastD_concat _ _ _

/-- The polyline just created stores exactly the given coordinates. -/
theorem cpr_last_polyline (f : IfcFile) (ctx : Nat) (coords : List (ℚ × ℚ))
    (o : ℚ × ℚ × ℚ) :
    (polylineCoordLists (create_polygon_representation f ctx coords o).1).getLastD []
      = coords.map (fun c => [c.1, c.2]) := by
  rw [cpr_entities]
  refine getLastD_polylineCoordLists _ _ _ _ ?_ ?_
  · refine filterMap_all_none _ _ ?_
    intro a ha
    simp only [List.mem_map] at ha
    obtain ⟨c, _, rfl⟩ := ha
    rfl
  · show [(List.range' f.entities.length coords.length).map (pointCoords _)]
      = [coords.map (fun c => [c.1, c.2])]
    rw [pointCoords_range]

/-- The placement built by `create_polygon_representation`: an origin point
with the given coordinates, an axis placement that has only that location
(axis and ref-direction unset, i.e. the identity orientation defaults),
and the returned local placement referencing it. -/
theorem cpr_placement (f : IfcFile) (ctx : Nat) (coords : List (ℚ × ℚ))
    (o : ℚ × ℚ × ℚ) :
    entityAt (create_polygon_representation f ctx coords o).1
        (f.entities.length + coords.length + 3)
      = .cartesianPoint [o.1, o.2.1, o.2.2] ∧
    entityAt (create_polygon_representation f ctx coords o).1
        (f.entities.length + coords.length + 4)
      = .axis2Placement3D (some (f.entities.length + coords.length + 3)) none none ∧
    (create_polygon_representation f ctx coords o).2.2
      = f.entities.length + coords.length + 5 ∧
    entityAt (create_polygon_representation f ctx coords o).1
        (f.entities.length + coords.length + 5)
      = .localPlacement (f.entities.length + coords.length + 4) := by
  rw [cpr_entities]
  refine ⟨?_, ?_, rfl, ?_⟩ <;>
    (simp only [entityAt]
     rw [List.getD_append_right _ _ _ _ (by simp +arith)]
     simp +arith)

/-- The three polylines of the `example2()` document are the stored corner
lists of the three squares (side 30, 10, 8), exactly as passed in. -/
theorem ex2_polylines :
    polylineCoordLists ex2File =
      [(squareCoords 30).map (fun c => [c.1, c.2]),
       (squareCoords 10).map (fun c => [c.1, c.2]),
       (squareCoords 8).map (fun c => [c.1, c.2])] := rfl

/-- Every polyline of the `example2()` document is a closed loop, because
each is a square corner list whose first and last entries are the same
corner. -/
theorem ex2_polylines_closed :
    ∀ cl ∈ polylineCoordLists ex2File, cl.headD [] = cl.getLastD [] := by
  intro cl hcl
  rw [ex2_polylines] at hcl
  rcases List.mem_cons.mp hcl with rfl | hcl
  · rfl
  rcases List.mem_cons.mp hcl with rfl | hcl
  · rfl
  rcases List.mem_cons.mp hcl with rfl | hcl
  · rfl
  exact absurd hcl (List.not_mem_nil cl)

/-- C4, counterexample: for an input whose first point differs from its
last, `create_polygon_representation` does not append the first point
again: the stored polyline is exactly the open input list. -/
theorem C4_counterexample :
    (∃ cl ∈ polylineCoordLists
        (create_polygon_representation ⟨[]⟩ 0 [(0, 0), (1, 0), (1, 1)] (0, 0, 0)).1,
      cl.headD [] ≠ cl.getLastD []) ∧
    polylineCoordLists
        (create_polygon_representation ⟨[]⟩ 0 [(0, 0), (1, 0), (1, 1)] (0, 0, 0)).1 =
      [[[0, 0], [1, 0], [1, 1]]] := by decide

/-- C4, amended: `create_polygon_representation` stores exactly the given
coordinate list — closing the loop is the caller's responsibility — and
anchors the placement at the given 3D origin with identity orientation
(axis and ref-direction unset); because `create_square_representation`
passes an explicitly closed 5-point list, every polygon stored in the
document built by `example2()` has first point equal to last point. -/
theorem C4_amended :
    (∀ (f : IfcFile) (ctx : Nat) (coords : List (ℚ × ℚ)) (o : ℚ × ℚ × ℚ),
      (polylineCoordLists (create_polygon_representation f ctx coords o).1).getLastD []
        = coords.map (fun c => [c.1, c.2]) ∧
      entityAt (create_polygon_representation f ctx coords o).1
          (f.entities.length + coords.length + 3)
        = .cartesianPoint [o.1, o.2.1, o.2.2] ∧
      entityAt (create_polygon_representation f ctx coords o).1
          (f.entities.length + coords.length + 4)
        = .axis2Placement3D (some (f.entities.length + coords.length + 3)) none none) ∧
    ∀ cl ∈ polylineCoordLists ex2File, cl.headD [] = cl.getLastD [] :=
  ⟨fun f ctx coords o =>
    ⟨cpr_last_polyline f ctx coords o, (cpr_placement f ctx coords o).1,
      (cpr_placement f ctx coords o).2.1⟩,
   ex2_polylines_closed⟩

/-- C5, counterexample: an input with only 2 distinct points is not
rejected — `create_polygon_representation` has no error path at all — and
a polyline over exactly those points is stored in the document. -/
theorem C5_counterexample :
    polylineCoordLists
        (create_polygon_representation ⟨[]⟩ 0 [(0, 0), (1, 1)] (0, 0, 0)).1 =
      [[[0, 0], [1, 1]]] := by decide

/-- C5, amended: `create_polygon_representation` performs no degeneracy
check: for every input with fewer than 3 distinct points it still returns
normally and stores the polyline with exactly the given points (no
`DegeneratePolygon` error exists in the code). -/
theorem C5_amended (f : IfcFile) (ctx : Nat) (coords : List (ℚ × ℚ))
    (o : ℚ × ℚ × ℚ) (h : coords.dedup.length < 3) :
    (polylineCoordLists (create_polygon_representation f ctx coords o).1).getLastD []
      = coords.map (fun c => [c.1, c.2]) :=
  cpr_last_polyline f ctx coords o

theorem C5_witness :
    (([(0, 0), (1, 1)] : List (ℚ × ℚ)).dedup.length < 3) ∧
    (polylineCoordLists
        (create_polygon_representation ⟨[]⟩ 0 [(0, 0), (1, 1)] (0, 0, 0)).1).getLastD []
      = ([(0, 0), (1, 1)] : List (ℚ × ℚ)).map (fun c => [c.1, c.2]) :=
  ⟨by decide, C5_amended ⟨[]⟩ 0 [(0, 0), (1, 1)] (0, 0, 0) (by decide)⟩

/-- Squared Euclidean distance between two plane points (exact, in `ℚ`;
the spec's tolerance of `1e-9` is met trivially because the equalities are
exact, and for `L ≥ 0` squared edge length `L ^ 2` is edge length `L`). -/
def sqDist (p q : ℚ × ℚ) : ℚ := (q.1 - p.1) ^ 2 + (q.2 - p.2) ^ 2

/-- C7: `create_square_representation` is `create_polygon_representation`
on the 5-point square list; that list is a closed loop (first point equals
last point, also in the stored polyline) and each of its four edges has
squared length exactly `L ^ 2`. -/
theorem C7_square_closed_and_edge_lengths (L : ℚ) (f : IfcFile) (ctx : Nat)
    (o : ℚ × ℚ × ℚ) :
    create_square_representation f ctx L o
      = create_polygon_representation f ctx (squareCoords L) o ∧
    (squareCoords L).headD (0, 0) = (squareCoords L).getLastD (0, 0) ∧
    ((polylineCoordLists (create_square_representation f ctx L o).1).getLastD []).headD []
      = ((polylineCoordLists (create_square_representation f ctx L o).1).getLastD []).getLastD [] ∧
    sqDist ((squareCoords L).getD 0 (0, 0)) ((squareCoords L).getD 1 (0, 0)) = L ^ 2 ∧
    sqDist ((squareCoords L).getD 1 (0, 0)) ((squareCoords L).getD 2 (0, 0)) = L ^ 2 ∧
    sqDist ((squareCoords L).getD 2 (0, 0)) ((squareCoords L).getD 3 (0, 0)) = L ^ 2 ∧
    sqDist ((squareCoords L).getD 3 (0, 0)) ((squareCoords L).getD 4 (0, 0)) = L ^ 2 := by
  refine ⟨rfl, rfl, ?_, ?_, ?_, ?_, ?_⟩
  · rw [show create_square_representation f ctx L o
        = create_polygon_representation f ctx (squareCoords L) o from rfl,
      cpr_last_polyline]
    rfl
  all_goals
    simp only [squareCoords, List.getD_cons_zero, List.getD_cons_succ, sqDist]
    ring
